import Mathlib

/-!
# Verification of the `hmacsig` HMAC-signature middleware

Shallow embedding of the Go package `hmacsig` (HMAC signature validation
HTTP middleware). Go byte slices and Go strings are both modelled as
`List Nat` with every element < 256; the hash functions (`crypto/sha1`,
`crypto/sha256`), `crypto/hmac`, `encoding/hex` and
`crypto/subtle.ConstantTimeCompare` are embedded as executable functions
on `List Nat`, and the middleware's `ServeHTTP` dispatch is embedded as a
pure function from a request model to a response model.
-/

/-- ASCII bytes of a string literal (all literals in the source are ASCII,
where Go's `[]byte(s)` UTF-8 conversion coincides with code points). -/
def ascii (s : String) : List Nat := s.data.map Char.toNat

/-- Truncation to a 32-bit word, `n mod 2^32`. -/
def w32 (n : Nat) : Nat := n % 4294967296

/-- 32-bit rotate left by `s` bits (for values < 2^32). -/
def rotl32 (s n : Nat) : Nat := w32 (n <<< s) ||| (n >>> (32 - s))

/-- 32-bit rotate right by `s` bits (for values < 2^32). -/
def rotr32 (s n : Nat) : Nat := (n >>> s) ||| w32 (n <<< (32 - s))

/-- Big-endian 4-byte encoding of a 32-bit word. -/
def be4 (w : Nat) : List Nat :=
  [(w >>> 24) % 256, (w >>> 16) % 256, (w >>> 8) % 256, w % 256]

/-- Big-endian 8-byte encoding of a 64-bit length field. -/
def be8 (n : Nat) : List Nat := be4 (w32 (n >>> 32)) ++ be4 (w32 n)

/-- Group bytes into big-endian 32-bit words (both SHA-1 and SHA-256 are
big-endian). -/
def toWordsBE : List Nat → List Nat
  | a :: b :: c :: d :: rest =>
      ((a <<< 24) ||| (b <<< 16) ||| (c <<< 8) ||| d) :: toWordsBE rest
  | _ => []

/-- Merkle–Damgård padding shared by SHA-1 and SHA-256: append `0x80`,
then zeros up to 56 mod 64, then the bit length as 8 big-endian bytes. -/
def mdPad (m : List Nat) : List Nat :=
  m ++ 0x80 :: (List.replicate ((119 - m.length % 64) % 64) 0 ++ be8 (8 * m.length))

/-- SHA-1 round constants `K(t)`. -/
def sha1K (t : Nat) : Nat :=
  if t < 20 then 1518500249
  else if t < 40 then 1859775393
  else if t < 60 then 2400959708
  else 3395469782

/-- SHA-1 round functions `f(t, b, c, d)`. -/
def sha1F (t b c d : Nat) : Nat :=
  if t < 20 then (b &&& c) ||| ((b ^^^ 0xFFFFFFFF) &&& d)
  else if t < 40 then b ^^^ c ^^^ d
  else if t < 60 then (b &&& c) ||| (b &&& d) ||| (c &&& d)
  else b ^^^ c ^^^ d

/-- Extend the SHA-1 message schedule; the accumulator holds the words
produced so far in reverse (most recent first), so `W[t-3]`, `W[t-8]`,
`W[t-14]`, `W[t-16]` sit at positions 2, 7, 13, 15. -/
def sha1ExtendRev : Nat → List Nat → List Nat
  | 0, acc => acc
  | n + 1, acc =>
      sha1ExtendRev n
        (rotl32 1 ((acc.getD 2 0) ^^^ (acc.getD 7 0) ^^^ (acc.getD 13 0) ^^^ (acc.getD 15 0)) :: acc)

/-- The 80-entry SHA-1 message schedule of a 16-word block. -/
def sha1Schedule (block : List Nat) : List Nat :=
  (sha1ExtendRev 64 block.reverse).reverse

/-- SHA-1 working state `(a, b, c, d, e)`. -/
abbrev Sha1State := Nat × Nat × Nat × Nat × Nat

/-- One SHA-1 compression round. -/
def sha1Round (t w : Nat) : Sha1State → Sha1State
  | (a, b, c, d, e) =>
      (w32 (rotl32 5 a + sha1F t b c d + e + sha1K t + w), a, rotl32 30 b, c, d)

/-- Run the SHA-1 rounds over the message schedule starting at round `t`. -/
def sha1Rounds : Nat → List Nat → Sha1State → Sha1State
  | _, [], st => st
  | t, w :: ws, st => sha1Rounds (t + 1) ws (sha1Round t w st)

/-- Compress one 64-byte block into the chaining state. -/
def sha1Block (st : Sha1State) (block : List Nat) : Sha1State :=
  match st, sha1Rounds 0 (sha1Schedule (toWordsBE block)) st with
  | (h0, h1, h2, h3, h4), (a, b, c, d, e) =>
      (w32 (h0 + a), w32 (h1 + b), w32 (h2 + c), w32 (h3 + d), w32 (h4 + e))

/-- Fold the compression function over consecutive 64-byte blocks; the fuel
argument (instantiated with the padded length, an upper bound on the number
of blocks) makes the recursion structural. -/
def sha1Blocks : Nat → Sha1State → List Nat → Sha1State
  | 0, st, _ => st
  | _, st, [] => st
  | fuel + 1, st, msg => sha1Blocks fuel (sha1Block st (msg.take 64)) (msg.drop 64)

/-- SHA-1 of a byte sequence (`crypto/sha1`), as its 20-byte digest. -/
def sha1 (m : List Nat) : List Nat :=
  match sha1Blocks (mdPad m).length (1732584193, 4023233417, 2562383102, 271733878, 3285377520)
      (mdPad m) with
  | (h0, h1, h2, h3, h4) => [h0, h1, h2, h3, h4].flatMap be4

/-- SHA-256 round constants (fractional parts of cube roots of the first
64 primes, `crypto/sha256`'s `_K`). -/
def sha256K : List Nat :=
  [1116352408, 1899447441, 3049323471, 3921009573,
   961987163, 1508970993, 2453635748, 2870763221,
   3624381080, 310598401, 607225278, 1426881987,
   1925078388, 2162078206, 2614888103, 3248222580,
   3835390401, 4022224774, 264347078, 604807628,
   770255983, 1249150122, 1555081692, 1996064986,
   2554220882, 2821834349, 2952996808, 3210313671,
   3336571891, 3584528711, 113926993, 338241895,
   666307205, 773529912, 1294757372, 1396182291,
   1695183700, 1986661051, 2177026350, 2456956037,
   2730485921, 2820302411, 3259730800, 3345764771,
   3516065817, 3600352804, 4094571909, 275423344,
   430227734, 506948616, 659060556, 883997877,
   958139571, 1322822218, 1537002063, 1747873779,
   1955562222, 2024104815, 2227730452, 2361852424,
   2428436474, 2756734187, 3204031479, 3329325298]

/-- SHA-256 big sigma 0. -/
def bsig0 (x : Nat) : Nat := rotr32 2 x ^^^ rotr32 13 x ^^^ rotr32 22 x

/-- SHA-256 big sigma 1. -/
def bsig1 (x : Nat) : Nat := rotr32 6 x ^^^ rotr32 11 x ^^^ rotr32 25 x

/-- SHA-256 small sigma 0. -/
def ssig0 (x : Nat) : Nat := rotr32 7 x ^^^ rotr32 18 x ^^^ (x >>> 3)

/-- SHA-256 small sigma 1. -/
def ssig1 (x : Nat) : Nat := rotr32 17 x ^^^ rotr32 19 x ^^^ (x >>> 10)

/-- SHA-256 choice function. -/
def sha2Ch (e f g : Nat) : Nat := (e &&& f) ^^^ ((e ^^^ 0xFFFFFFFF) &&& g)

/-- SHA-256 majority function. -/
def sha2Maj (a b c : Nat) : Nat := (a &&& b) ^^^ (a &&& c) ^^^ (b &&& c)

/-- Extend the SHA-256 message schedule; the accumulator is reversed, so
`W[t-2]`, `W[t-7]`, `W[t-15]`, `W[t-16]` sit at positions 1, 6, 14, 15. -/
def sha256ExtendRev : Nat → List Nat → List Nat
  | 0, acc => acc
  | n + 1, acc =>
      sha256ExtendRev n
        (w32 (ssig1 (acc.getD 1 0) + acc.getD 6 0 + ssig0 (acc.getD 14 0) + acc.getD 15 0) :: acc)

/-- The 64-entry SHA-256 message schedule of a 16-word block. -/
def sha256Schedule (block : List Nat) : List Nat :=
  (sha256ExtendRev 48 block.reverse).reverse

/-- SHA-256 working state `(a, b, c, d, e, f, g, h)`. -/
abbrev Sha256State := Nat × Nat × Nat × Nat × Nat × Nat × Nat × Nat

/-- One SHA-256 compression round with round constant `k` and schedule
word `w`. -/
def sha256Round (k w : Nat) : Sha256State → Sha256State
  | (a, b, c, d, e, f, g, h) =>
      let t1 := w32 (h + bsig1 e + sha2Ch e f g + k + w)
      let t2 := w32 (bsig0 a + sha2Maj a b c)
      (w32 (t1 + t2), a, b, c, w32 (d + t1), e, f, g)

/-- Run the SHA-256 rounds over the zipped (constant, schedule word) list. -/
def sha256Rounds : List (Nat × Nat) → Sha256State → Sha256State
  | [], st => st
  | (k, w) :: kws, st => sha256Rounds kws (sha256Round k w st)

/-- Compress one 64-byte block into the SHA-256 chaining state. -/
def sha256Block (st : Sha256State) (block : List Nat) : Sha256State :=
  match st, sha256Rounds (sha256K.zip (sha256Schedule (toWordsBE block))) st with
  | (h0, h1, h2, h3, h4, h5, h6, h7), (a, b, c, d, e, f, g, h) =>
      (w32 (h0 + a), w32 (h1 + b), w32 (h2 + c), w32 (h3 + d),
       w32 (h4 + e), w32 (h5 + f), w32 (h6 + g), w32 (h7 + h))

/-- Fold the SHA-256 compression function over consecutive 64-byte blocks
(fuel-driven structural recursion, fuel instantiated with the padded
length). -/
def sha256Blocks : Nat → Sha256State → List Nat → Sha256State
  | 0, st, _ => st
  | _, st, [] => st
  | fuel + 1, st, msg => sha256Blocks fuel (sha256Block st (msg.take 64)) (msg.drop 64)

/-- SHA-256 of a byte sequence (`crypto/sha256`), as its 32-byte digest. -/
def sha256 (m : List Nat) : List Nat :=
  match sha256Blocks (mdPad m).length
      (1779033703, 3144134277, 1013904242, 2773480762, 1359893119, 2600822924, 528734635, 1541459225)
      (mdPad m) with
  | (h0, h1, h2, h3, h4, h5, h6, h7) => [h0, h1, h2, h3, h4, h5, h6, h7].flatMap be4

/-- The lowercase hex alphabet indexed by `encoding/hex` (`hextable`). -/
def hextable : List Nat := ascii "0123456789abcdef"

/-- `encoding/hex.EncodeToString`: each byte becomes the hex digits of its
high and low nibble, as ASCII bytes. -/
def hexEncodeToString (src : List Nat) : List Nat :=
  src.flatMap (fun b => [hextable.getD (b >>> 4) 0, hextable.getD (b &&& 0x0f) 0])

/-- `crypto/hmac`: both SHA-1 and SHA-256 have a 64-byte block size; keys
longer than the block size are first hashed, then zero-padded, and the
digest is `H((key ^ opad) ++ H((key ^ ipad) ++ msg))`. -/
def hmacGo (hash : List Nat → List Nat) (blocksize : Nat) (key msg : List Nat) : List Nat :=
  let k0 := if blocksize < key.length then hash key else key
  let kp := k0 ++ List.replicate (blocksize - k0.length) 0
  hash ((kp.map (fun b => b ^^^ 0x5c)) ++ hash ((kp.map (fun b => b ^^^ 0x36)) ++ msg))

/-- HMAC keyed on SHA-1 (`hmac.New(sha1.New, key)` then `Sum`). -/
def hmacSha1 (key msg : List Nat) : List Nat := hmacGo sha1 64 key msg

/-- HMAC keyed on SHA-256 (`hmac.New(sha256.New, key)` then `Sum`). -/
def hmacSha256 (key msg : List Nat) : List Nat := hmacGo sha256 64 key msg

/-- `crypto/subtle.ConstantTimeByteEq`: `(uint32(x^y) - 1) >> 31`, with the
`uint32` subtraction wrapping modulo 2^32. -/
def constantTimeByteEq (x y : Nat) : Nat := (((x ^^^ y) + 0xFFFFFFFF) % 0x100000000) >>> 31

/-- The accumulator of `crypto/subtle.ConstantTimeCompare`'s loop:
`v |= x[i] ^ y[i]` folded left over the zipped byte lists. -/
def ctFoldV (x y : List Nat) : Nat :=
  (x.zip y).foldl (fun v p => v ||| (p.1 ^^^ p.2)) 0

/-- `crypto/subtle.ConstantTimeCompare`: 0 when the lengths differ,
otherwise 1 exactly when the accumulated difference is zero. -/
def constantTimeCompare (x y : List Nat) : Nat :=
  if x.length = y.length then constantTimeByteEq (ctFoldV x y) 0 else 0

/-- `crypto/hmac.Equal(mac1, mac2)` = `subtle.ConstantTimeCompare(...) == 1`. -/
def hmacEqual (mac1 mac2 : List Nat) : Bool := constantTimeCompare mac1 mac2 == 1

/-- The successive values taken by the accumulator `v` of
`ConstantTimeCompare`'s loop, one entry per executed iteration
(instrumentation used to state the no-short-circuit property). -/
def ctTrace : Nat → List Nat → List Nat → List Nat
  | v, a :: as, b :: bs => (v ||| (a ^^^ b)) :: ctTrace (v ||| (a ^^^ b)) as bs
  | _, _, _ => []

/-!
## The `hmacsig` package itself

Go strings (`secret`, `sig`, the header name, response messages) are byte
lists; `[]byte(s)` on a string is the identity of this representation. An
HTTP response is modelled by its status code and body; `http.Error(w, msg,
code)` writes `code` and `msg`. A request is modelled by its header lookup
function (`r.Header.Get`, returning the empty string for an absent header)
together with the state of its body stream: `Except e bytes` is what
`ioutil.ReadAll(r.Body)` would currently return. A successful `ReadAll`
consumes the stream (a further read yields no bytes), and
`ioutil.NopCloser(bytes.NewBuffer(b))` is a fresh stream yielding `b`. -/

/-- An HTTP response: status code and body written. -/
structure Response where
  status : Nat
  body : List Nat
  deriving DecidableEq

/-- An HTTP request: header lookup (name to value, `[]` when absent) and
the current body stream contents as seen by `ReadAll`. -/
structure Request where
  header : List Nat → List Nat
  body : Except (List Nat) (List Nat)

/-- An HTTP handler (`http.Handler` / `http.HandlerFunc`). -/
abbrev HttpHandler := Request → Response

/-- `http.Error(w, error, code)`. -/
def httpError (error : List Nat) (code : Nat) : Response := ⟨code, error⟩

/-- `http.StatusForbidden`. -/
def statusForbidden : Nat := 403

/-- `http.StatusInternalServerError`. -/
def statusInternalServerError : Nat := 500

/-- `GithubSignatureHeader`, the default header for SHA-1 signatures. -/
def GithubSignatureHeader : List Nat := ascii "X-Hub-Signature"

/-- `GithubSignatureHeader256`, the default header for SHA-256 signatures. -/
def GithubSignatureHeader256 : List Nat := ascii "X-Hub-Signature-256"

/-- `MsgMissingSignature`. -/
def MsgMissingSignature : List Nat := ascii "Missing required header for HMAC verification"

/-- `MsgFailedHMAC`. -/
def MsgFailedHMAC : List Nat := ascii "HMAC verification failed"

/-- `SignatureValidator`: `func(body []byte, sig, secret string) bool`. -/
abbrev SignatureValidator := List Nat → List Nat → List Nat → Bool

/-- `SHA1Validator`: recompute `"sha1=" + hex(HMAC-SHA1(secret, body))`
and compare with `hmac.Equal`. -/
def SHA1Validator (body sig secret : List Nat) : Bool :=
  hmacEqual (ascii "sha1=" ++ hexEncodeToString (hmacSha1 secret body)) sig

/-- `SHA256Validator`: recompute `"sha256=" + hex(HMAC-SHA256(secret, body))`
and compare with `hmac.Equal`. -/
def SHA256Validator (body sig secret : List Nat) : Bool :=
  hmacEqual (ascii "sha256=" ++ hexEncodeToString (hmacSha256 secret body)) sig

/-- The middleware configuration struct `hmacSig`. -/
structure HmacSig where
  h : HttpHandler
  secret : List Nat
  header : List Nat
  missingSignatureHandler : HttpHandler
  verifyFailedHandler : HttpHandler
  validator : SignatureValidator

/-- `Option`, a functional option mutating the `hmacSig` under
construction (named `SigOption` to avoid clashing with Lean's `Option`). -/
abbrev SigOption := HmacSig → HmacSig

/-- `OptionHeader` configures the HTTP header to read for the signature. -/
def OptionHeader (header : List Nat) : SigOption :=
  fun mux => { mux with header := header }

/-- `OptionMissingSignatureHandler` configures the handler called on a
missing signature. -/
def OptionMissingSignatureHandler (handler : HttpHandler) : SigOption :=
  fun mux => { mux with missingSignatureHandler := handler }

/-- `OptionVerifyFailedHandler` configures the handler called on HMAC
verification failure. -/
def OptionVerifyFailedHandler (handler : HttpHandler) : SigOption :=
  fun mux => { mux with verifyFailedHandler := handler }

/-- `OptionDefaultsSHA256` sets the header and the validator to the GitHub
SHA-256 defaults. -/
def OptionDefaultsSHA256 : SigOption :=
  fun mux => { mux with header := GithubSignatureHeader256, validator := SHA256Validator }

/-- `OptionSignatureValidator` configures the `SignatureValidator`. -/
def OptionSignatureValidator (validator : SignatureValidator) : SigOption :=
  fun mux => { mux with validator := validator }

/-- `DefaultMissingSignatureHandler`: 403 with `MsgMissingSignature`. -/
def DefaultMissingSignatureHandler : HttpHandler :=
  fun _ => httpError MsgMissingSignature statusForbidden

/-- `DefaultVerifyFailedHandler`: 403 with `MsgFailedHMAC`. -/
def DefaultVerifyFailedHandler : HttpHandler :=
  fun _ => httpError MsgFailedHMAC statusForbidden

/-- `Handler`: build the `hmacSig` with the SHA-1 defaults, then apply the
options in order. -/
def Handler (h : HttpHandler) (secret : List Nat) (options : List SigOption) : HmacSig :=
  options.foldl (fun sig option => option sig)
    { h := h
      secret := secret
      header := GithubSignatureHeader
      missingSignatureHandler := DefaultMissingSignatureHandler
      verifyFailedHandler := DefaultVerifyFailedHandler
      validator := SHA1Validator }

/-- `Handler256`: invoke `Handler` with `OptionDefaultsSHA256` prepended
to the options. -/
def Handler256 (h : HttpHandler) (secret : List Nat) (options : List SigOption) : HmacSig :=
  Handler h secret (OptionDefaultsSHA256 :: options)

/-- `ServeHTTP`: read the body (500 with the error text on failure), then
dispatch on the signature header. `ReadAll` exhausts the body stream, so
the request handed to the missing-signature and verify-failed handlers has
an empty body stream; on success the body is replaced by a fresh buffer
over the bytes read before the downstream handler runs. -/
def ServeHTTP (xh : HmacSig) (r : Request) : Response :=
  match r.body with
  | .error e => httpError e statusInternalServerError
  | .ok b =>
      let rc : Request := { r with body := .ok [] }
      let xSig := rc.header xh.header
      if xSig = [] then xh.missingSignatureHandler rc
      else if !xh.validator b xSig xh.secret then xh.verifyFailedHandler rc
      else xh.h { rc with body := .ok b }

/-!
## Helper lemmas
-/

/-- A byte list all of whose elements are Go bytes (< 256). -/
abbrev IsBytes (l : List Nat) : Prop := ∀ a ∈ l, a < 256

theorem nat_or_eq_zero_iff {x y : Nat} : x ||| y = 0 ↔ x = 0 ∧ y = 0 := by
  constructor
  · intro h
    refine ⟨?_, ?_⟩ <;> by_contra hx <;>
      obtain ⟨i, hi⟩ := Nat.ne_zero_implies_bit_true hx <;>
      have hb : (x ||| y).testBit i = true := by simp [Nat.testBit_or, hi]
    · rw [h] at hb; simp at hb
    · rw [h] at hb; simp at hb
  · rintro ⟨rfl, rfl⟩; rfl

theorem ctFoldV_go_eq_zero {x y : List Nat} (v : Nat) :
    (x.zip y).foldl (fun v p => v ||| (p.1 ^^^ p.2)) v = 0 ↔
      v = 0 ∧ ∀ p ∈ x.zip y, p.1 = p.2 := by
  induction x generalizing y v with
  | nil => simp
  | cons a as ih =>
      cases y with
      | nil => simp
      | cons b bs =>
          simp only [List.zip_cons_cons, List.foldl_cons, List.mem_cons]
          rw [ih]
          constructor
          · rintro ⟨hv, hrest⟩
            obtain ⟨hv0, hab⟩ := nat_or_eq_zero_iff.mp hv
            exact ⟨hv0, fun p hp => by
              rcases hp with rfl | hp
              · exact Nat.xor_eq_zero.mp hab
              · exact hrest p hp⟩
          · rintro ⟨hv0, hall⟩
            have hab : a ^^^ b = 0 := Nat.xor_eq_zero.mpr (hall (a, b) (.inl rfl))
            exact ⟨by simp [hv0, hab], fun p hp => hall p (.inr hp)⟩

theorem ctFoldV_eq_zero_iff {x y : List Nat} (hlen : x.length = y.length) :
    ctFoldV x y = 0 ↔ x = y := by
  rw [ctFoldV, ctFoldV_go_eq_zero]
  constructor
  · rintro ⟨-, hall⟩
    exact List.ext_getElem hlen fun i h1 h2 => by
      exact hall (x[i], y[i]) (by
        rw [List.mem_iff_getElem]
        exact ⟨i, by rw [List.length_zip, hlen, Nat.min_self]; exact h2,
          by simp [List.getElem_zip]⟩)
  · rintro rfl
    refine ⟨rfl, fun p hp => ?_⟩
    obtain ⟨i, hi, hp⟩ := List.mem_iff_getElem.mp hp
    rw [List.getElem_zip] at hp
    rw [← hp]

theorem ctFoldV_go_lt {x y : List Nat} (hx : IsBytes x) (hy : IsBytes y)
    {v : Nat} (hv : v < 256) :
    (x.zip y).foldl (fun v p => v ||| (p.1 ^^^ p.2)) v < 256 := by
  induction x generalizing y v with
  | nil => simpa
  | cons a as ih =>
      cases y with
      | nil => simpa
      | cons b bs =>
          simp only [List.zip_cons_cons, List.foldl_cons]
          refine ih (fun c hc => hx c (List.mem_cons_of_mem a hc))
            (fun c hc => hy c (List.mem_cons_of_mem b hc)) ?_
          have h256 : (256 : Nat) = 2 ^ 8 := rfl
          rw [h256] at hv ⊢
          exact Nat.or_lt_two_pow hv
            (Nat.xor_lt_two_pow (h256 ▸ hx a (List.mem_cons_self a as))
              (h256 ▸ hy b (List.mem_cons_self b bs)))

theorem ctFoldV_lt {x y : List Nat} (hx : IsBytes x) (hy : IsBytes y) :
    ctFoldV x y < 256 :=
  ctFoldV_go_lt hx hy (by omega)

theorem constantTimeByteEq_zero_right {v : Nat} (hv : v < 256) :
    constantTimeByteEq v 0 = if v = 0 then 1 else 0 := by
  rw [constantTimeByteEq]
  rcases Nat.eq_zero_or_pos v with rfl | hpos
  · rfl
  · rw [if_neg (by omega)]
    have hx : v ^^^ 0 = v := Nat.xor_zero v
    rw [hx]
    have hmod : (v + 0xFFFFFFFF) % 0x100000000 = v - 1 := by
      have : v + 0xFFFFFFFF = (v - 1) + 1 * 0x100000000 := by omega
      rw [this, Nat.add_mul_mod_self_right]
      exact Nat.mod_eq_of_lt (by omega)
    rw [hmod, Nat.shiftRight_eq_div_pow]
    exact Nat.div_eq_of_lt (by omega)

/-- `hmac.Equal` is reflexive: the recomputed signature always matches
itself. -/
theorem hmacEqual_self (x : List Nat) : hmacEqual x x = true := by
  have h0 : ctFoldV x x = 0 :=
    (ctFoldV_eq_zero_iff rfl).mpr rfl
  rw [hmacEqual, constantTimeCompare, if_pos rfl, h0]
  rfl

/-- `hmac.Equal` rejects byte strings of different lengths. -/
theorem hmacEqual_ne_length {x y : List Nat} (h : x.length ≠ y.length) :
    hmacEqual x y = false := by
  rw [hmacEqual, constantTimeCompare, if_neg h]
  rfl

theorem ctTrace_length {x y : List Nat} (v : Nat) (hlen : x.length = y.length) :
    (ctTrace v x y).length = x.length := by
  induction x generalizing y v with
  | nil => cases y with
    | nil => rfl
    | cons b bs => cases hlen
  | cons a as ih =>
      cases y with
      | nil => cases hlen
      | cons b bs =>
          simp only [ctTrace, List.length_cons]
          rw [ih _ (by simpa using hlen)]

theorem hexEncodeToString_length (src : List Nat) :
    (hexEncodeToString src).length = 2 * src.length := by
  induction src with
  | nil => rfl
  | cons a l ih =>
      simp only [hexEncodeToString, List.flatMap_cons, List.length_append,
        List.length_cons, List.length_nil] at ih ⊢
      omega

theorem sha1_length (m : List Nat) : (sha1 m).length = 20 := by
  rw [sha1]
  rcases sha1Blocks (mdPad m).length
      (1732584193, 4023233417, 2562383102, 271733878, 3285377520) (mdPad m) with
    ⟨a, b, c, d, e⟩
  rfl

theorem sha256_length (m : List Nat) : (sha256 m).length = 32 := by
  rw [sha256]
  rcases sha256Blocks (mdPad m).length
      (1779033703, 3144134277, 1013904242, 2773480762, 1359893119, 2600822924, 528734635,
        1541459225) (mdPad m) with
    ⟨h0, h1, h2, h3, h4, h5, h6, h7⟩
  rfl

theorem hmacSha1_length (key msg : List Nat) : (hmacSha1 key msg).length = 20 :=
  sha1_length _

theorem hmacSha256_length (key msg : List Nat) : (hmacSha256 key msg).length = 32 :=
  sha256_length _

/-- `hmac.Equal` decides equality on equal-length byte strings. -/
theorem hmacEqual_eq_true_iff {x y : List Nat} (hlen : x.length = y.length)
    (hx : IsBytes x) (hy : IsBytes y) : hmacEqual x y = true ↔ x = y := by
  rw [hmacEqual, constantTimeCompare, if_pos hlen,
    constantTimeByteEq_zero_right (ctFoldV_lt hx hy)]
  rcases eq_or_ne (ctFoldV x y) 0 with h0 | h0
  · rw [if_pos h0]
    simpa using (ctFoldV_eq_zero_iff hlen).mp h0
  · rw [if_neg h0]
    constructor
    · intro h; simp at h
    · intro h; exact absurd ((ctFoldV_eq_zero_iff hlen).mpr h) h0

/-!
## Sanity anchors: the repository's own test vectors

These tie the embedded SHA-1/SHA-256/HMAC/hex pipeline to the concrete
digests appearing in the package's test files.
-/

set_option maxRecDepth 10000 in
theorem hmacSha1_test_vector :
    hexEncodeToString (hmacSha1 (ascii "supersecret") (ascii "This is the body of the request")) =
      ascii "0de7dbe42dfef6ed31d9d0d4374c962209e5339c" := by decide

set_option maxRecDepth 10000 in
theorem hmacSha256_test_vector :
    hexEncodeToString (hmacSha256 (ascii "EvenDifferentKey") (ascii "This body is super")) =
      ascii "814e50a60cf9b4eed0e28efad0c801db5d93d4cc0f41c5bf2c6e0183ce0b9b23" := by decide

/-!
## Claim theorems
-/

/-- C1: for every body `B` and secret `S`, `SHA1Validator` accepts
`"sha1=" ++ lowercase-hex(HMAC-SHA1(S, B))` and `SHA256Validator` accepts
`"sha256=" ++ lowercase-hex(HMAC-SHA256(S, B))`. -/
theorem C1_validators_accept_correct_signature (B S : List Nat) :
    SHA1Validator B (ascii "sha1=" ++ hexEncodeToString (hmacSha1 S B)) S = true ∧
    SHA256Validator B (ascii "sha256=" ++ hexEncodeToString (hmacSha256 S B)) S = true :=
  ⟨hmacEqual_self _, hmacEqual_self _⟩

/-- C7: `SHA1Validator` rejects the correctly computed SHA-256-format
signature and `SHA256Validator` rejects the correctly computed SHA-1-format
signature, for every body `B` and secret `S`. -/
theorem C7_cross_algorithm_rejection (B S : List Nat) :
    SHA1Validator B (ascii "sha256=" ++ hexEncodeToString (hmacSha256 S B)) S = false ∧
    SHA256Validator B (ascii "sha1=" ++ hexEncodeToString (hmacSha1 S B)) S = false := by
  constructor
  · apply hmacEqual_ne_length
    rw [List.length_append, List.length_append, hexEncodeToString_length,
      hexEncodeToString_length, hmacSha1_length, hmacSha256_length]
    decide
  · apply hmacEqual_ne_length
    rw [List.length_append, List.length_append, hexEncodeToString_length,
      hexEncodeToString_length, hmacSha1_length, hmacSha256_length]
    decide

/-- C6: the signature comparison used by both validators is `hmac.Equal`,
a constant-time equality over byte representations: on equal-length
inputs the loop runs over the full length (one accumulator update per
byte, never short-circuiting at the first mismatch), the result branches
only on the final accumulated difference, and the primitive decides
byte-string equality. -/
theorem C6_comparison_is_constant_time (x y B sig S : List Nat)
    (hlen : x.length = y.length) (hx : IsBytes x) (hy : IsBytes y) :
    (ctTrace 0 x y).length = x.length ∧
    hmacEqual x y = (constantTimeByteEq (ctFoldV x y) 0 == 1) ∧
    (hmacEqual x y = true ↔ x = y) ∧
    SHA1Validator B sig S =
      hmacEqual (ascii "sha1=" ++ hexEncodeToString (hmacSha1 S B)) sig ∧
    SHA256Validator B sig S =
      hmacEqual (ascii "sha256=" ++ hexEncodeToString (hmacSha256 S B)) sig := by
  refine ⟨ctTrace_length 0 hlen, ?_, hmacEqual_eq_true_iff hlen hx hy, rfl, rfl⟩
  rw [hmacEqual, constantTimeCompare, if_pos hlen]

/-- C6 witness: the constant-time comparison at a concrete unequal pair of
equal-length byte strings. -/
theorem C6_comparison_is_constant_time_witness :
    (ctTrace 0 [1, 2, 3] [1, 2, 4]).length = [1, 2, 3].length ∧
    hmacEqual [1, 2, 3] [1, 2, 4] = (constantTimeByteEq (ctFoldV [1, 2, 3] [1, 2, 4]) 0 == 1) ∧
    (hmacEqual [1, 2, 3] [1, 2, 4] = true ↔ [1, 2, 3] = [1, 2, 4]) ∧
    SHA1Validator [] (ascii "invalid") [] =
      hmacEqual (ascii "sha1=" ++ hexEncodeToString (hmacSha1 [] [])) (ascii "invalid") ∧
    SHA256Validator [] (ascii "invalid") [] =
      hmacEqual (ascii "sha256=" ++ hexEncodeToString (hmacSha256 [] [])) (ascii "invalid") :=
  C6_comparison_is_constant_time [1, 2, 3] [1, 2, 4] [] (ascii "invalid") []
    rfl (by decide) (by decide)

/-- C2: when the body read succeeds and the configured header is absent or
empty, `ServeHTTP` invokes the missing-signature handler on the request
(with its body stream consumed) — so the result never depends on the
downstream handler — and with the default handler the response is
HTTP 403 with body `MsgMissingSignature`, regardless of body and secret. -/
theorem C2_missing_header_rejected (xh : HmacSig) (r : Request) (b : List Nat)
    (hread : r.body = Except.ok b) (hmissing : r.header xh.header = []) :
    ServeHTTP xh r = xh.missingSignatureHandler { r with body := Except.ok [] } ∧
    (xh.missingSignatureHandler = DefaultMissingSignatureHandler →
      ServeHTTP xh r = ⟨statusForbidden, MsgMissingSignature⟩) := by
  have hmain : ServeHTTP xh r = xh.missingSignatureHandler { r with body := Except.ok [] } := by
    rw [ServeHTTP, hread]
    exact if_pos hmissing
  exact ⟨hmain, fun hdef => by rw [hmain, hdef]; rfl⟩

/-- C2 witness: an empty-bodied request with no signature header, against
the default SHA-1 configuration, yields 403 `MsgMissingSignature`. -/
theorem C2_missing_header_rejected_witness :
    ServeHTTP (Handler (fun _ => ⟨200, ascii "success"⟩) (ascii "supersecret") [])
        ⟨fun _ => [], Except.ok []⟩ =
      ⟨statusForbidden, MsgMissingSignature⟩ :=
  (C2_missing_header_rejected
      (Handler (fun _ => ⟨200, ascii "success"⟩) (ascii "supersecret") [])
      ⟨fun _ => [], Except.ok []⟩ [] rfl rfl).2 rfl

/-- C3: when the body read succeeds, the header is present and non-empty,
and the configured validator rejects (body, header value, secret),
`ServeHTTP` invokes the verification-failed handler on the request (with
its body stream consumed) — never the downstream handler — and with the
default handler the response is HTTP 403 with body `MsgFailedHMAC`. -/
theorem C3_bad_signature_rejected (xh : HmacSig) (r : Request) (b : List Nat)
    (hread : r.body = Except.ok b) (hsig : r.header xh.header ≠ [])
    (hfail : xh.validator b (r.header xh.header) xh.secret = false) :
    ServeHTTP xh r = xh.verifyFailedHandler { r with body := Except.ok [] } ∧
    (xh.verifyFailedHandler = DefaultVerifyFailedHandler →
      ServeHTTP xh r = ⟨statusForbidden, MsgFailedHMAC⟩) := by
  have hmain : ServeHTTP xh r = xh.verifyFailedHandler { r with body := Except.ok [] } := by
    simp only [ServeHTTP, hread]
    rw [if_neg hsig, hfail]
    rfl
  exact ⟨hmain, fun hdef => by rw [hmain, hdef]; rfl⟩

set_option maxRecDepth 10000 in
/-- C3 witness: the test scenario — header value `"invalid"`, secret
`"xasd"`, empty body, default configuration — yields 403 `MsgFailedHMAC`. -/
theorem C3_bad_signature_rejected_witness :
    ServeHTTP (Handler (fun _ => ⟨200, ascii "success"⟩) (ascii "xasd") [])
        ⟨fun _ => ascii "invalid", Except.ok []⟩ =
      ⟨statusForbidden, MsgFailedHMAC⟩ :=
  (C3_bad_signature_rejected
      (Handler (fun _ => ⟨200, ascii "success"⟩) (ascii "xasd") [])
      ⟨fun _ => ascii "invalid", Except.ok []⟩ [] rfl (by decide) (by decide)).2 rfl

/-- C4: on verification success, `ServeHTTP` invokes the downstream
handler with the request whose body stream is a fresh buffer holding
exactly the bytes originally read — and since those are the original
request's bytes, that request equals the original request itself
(round-trip: nothing altered, truncated, or duplicated). -/
theorem C4_success_preserves_body (xh : HmacSig) (r : Request) (b : List Nat)
    (hread : r.body = Except.ok b) (hsig : r.header xh.header ≠ [])
    (hok : xh.validator b (r.header xh.header) xh.secret = true) :
    ServeHTTP xh r = xh.h { r with body := Except.ok b } ∧
    ({ r with body := Except.ok b } : Request) = r := by
  have hmain : ServeHTTP xh r = xh.h { r with body := Except.ok b } := by
    simp only [ServeHTTP, hread]
    rw [if_neg hsig, hok]
    rfl
  refine ⟨hmain, ?_⟩
  cases r with
  | mk header body => simpa using hread.symm

set_option maxRecDepth 10000 in
/-- C4 witness: the test scenario — body `"This is the body of the
request"`, secret `"supersecret"`, header `sha1=0de7...` — forwards to a
downstream handler observing exactly the original body bytes. -/
theorem C4_success_preserves_body_witness :
    ServeHTTP
        (Handler (fun req => ⟨200, match req.body with | .ok bs => bs | .error e => e⟩)
          (ascii "supersecret") [])
        ⟨fun _ => ascii "sha1=0de7dbe42dfef6ed31d9d0d4374c962209e5339c",
          Except.ok (ascii "This is the body of the request")⟩ =
      ⟨200, ascii "This is the body of the request"⟩ := by
  have h := C4_success_preserves_body
    (Handler (fun req => ⟨200, match req.body with | .ok bs => bs | .error e => e⟩)
      (ascii "supersecret") [])
    ⟨fun _ => ascii "sha1=0de7dbe42dfef6ed31d9d0d4374c962209e5339c",
      Except.ok (ascii "This is the body of the request")⟩
    (ascii "This is the body of the request") rfl (by decide) (by decide)
  rw [h.1]
  rfl

/-- C5: when reading the body fails with error `e`, `ServeHTTP` responds
HTTP 500 with the error text as body — for every configuration and every
header map, so the branch precedes the header examination and none of the
three configured handlers can influence the result. -/
theorem C5_read_error_500 (xh : HmacSig) (r : Request) (e : List Nat)
    (hread : r.body = Except.error e) :
    ServeHTTP xh r = ⟨statusInternalServerError, e⟩ := by
  rw [ServeHTTP, hread]
  rfl

/-- C5 witness: a request whose body read fails with `"unexpected EOF"`
yields 500 with that text, under the default configuration. -/
theorem C5_read_error_500_witness :
    ServeHTTP (Handler (fun _ => ⟨200, ascii "success"⟩) (ascii "supersecret") [])
        ⟨fun _ => [], Except.error (ascii "unexpected EOF")⟩ =
      ⟨statusInternalServerError, ascii "unexpected EOF"⟩ :=
  C5_read_error_500
    (Handler (fun _ => ⟨200, ascii "success"⟩) (ascii "supersecret") [])
    ⟨fun _ => [], Except.error (ascii "unexpected EOF")⟩ (ascii "unexpected EOF") rfl

/-- C10: after a successful body read, both rejection paths hand the
handler the request with its body stream already consumed (`ReadAll` on it
yields no bytes — the body is not restored there); only the success path
hands the downstream handler a restored body with the original bytes. -/
theorem C10_rejection_handlers_see_consumed_body (xh : HmacSig) (r : Request) (b : List Nat)
    (hread : r.body = Except.ok b) :
    (r.header xh.header = [] →
      ServeHTTP xh r = xh.missingSignatureHandler { r with body := Except.ok [] }) ∧
    (r.header xh.header ≠ [] → xh.validator b (r.header xh.header) xh.secret = false →
      ServeHTTP xh r = xh.verifyFailedHandler { r with body := Except.ok [] }) ∧
    (r.header xh.header ≠ [] → xh.validator b (r.header xh.header) xh.secret = true →
      ServeHTTP xh r = xh.h { r with body := Except.ok b }) := by
  refine ⟨fun hmiss => ?_, fun hsig hfail => ?_, fun hsig hok => ?_⟩
  · rw [ServeHTTP, hread]
    exact if_pos hmiss
  · simp only [ServeHTTP, hread]
    rw [if_neg hsig, hfail]
    rfl
  · simp only [ServeHTTP, hread]
    rw [if_neg hsig, hok]
    rfl

/-- C10 witness: with a non-empty body and a missing header, the
missing-signature handler receives the request with an exhausted body
stream. -/
theorem C10_rejection_handlers_see_consumed_body_witness :
    ServeHTTP (Handler (fun _ => ⟨200, ascii "success"⟩) (ascii "secret") [])
        ⟨fun _ => [], Except.ok (ascii "payload")⟩ =
      (Handler (fun _ => ⟨200, ascii "success"⟩) (ascii "secret") []).missingSignatureHandler
        ⟨fun _ => [], Except.ok []⟩ :=
  (C10_rejection_handlers_see_consumed_body
      (Handler (fun _ => ⟨200, ascii "success"⟩) (ascii "secret") [])
      ⟨fun _ => [], Except.ok (ascii "payload")⟩ (ascii "payload") rfl).1 rfl

/-- C9: `Handler` with no options defaults to the SHA-1 validator, header
`X-Hub-Signature` and the two default rejection handlers; `Handler256`
defaults to the SHA-256 validator and header `X-Hub-Signature-256`; and
each configuration field is independently overridable by its option,
including on top of `Handler256`'s defaults. -/
theorem C9_defaults_and_overrides (h : HttpHandler) (secret hd : List Nat)
    (v : SignatureValidator) (m f : HttpHandler) :
    (Handler h secret []).h = h ∧
    (Handler h secret []).secret = secret ∧
    (Handler h secret []).header = GithubSignatureHeader ∧
    (Handler h secret []).validator = SHA1Validator ∧
    (Handler h secret []).missingSignatureHandler = DefaultMissingSignatureHandler ∧
    (Handler h secret []).verifyFailedHandler = DefaultVerifyFailedHandler ∧
    (Handler256 h secret []).header = GithubSignatureHeader256 ∧
    (Handler256 h secret []).validator = SHA256Validator ∧
    (Handler256 h secret []).missingSignatureHandler = DefaultMissingSignatureHandler ∧
    (Handler256 h secret []).verifyFailedHandler = DefaultVerifyFailedHandler ∧
    (Handler h secret [OptionHeader hd]).header = hd ∧
    (Handler h secret [OptionHeader hd]).validator = SHA1Validator ∧
    (Handler h secret [OptionSignatureValidator v]).validator = v ∧
    (Handler h secret [OptionSignatureValidator v]).header = GithubSignatureHeader ∧
    (Handler h secret [OptionMissingSignatureHandler m]).missingSignatureHandler = m ∧
    (Handler h secret [OptionVerifyFailedHandler f]).verifyFailedHandler = f ∧
    (Handler256 h secret [OptionHeader hd]).header = hd ∧
    (Handler256 h secret [OptionHeader hd]).validator = SHA256Validator ∧
    (Handler256 h secret [OptionSignatureValidator v]).validator = v ∧
    (Handler256 h secret [OptionSignatureValidator v]).header = GithubSignatureHeader256 ∧
    (Handler256 h secret [OptionMissingSignatureHandler m]).missingSignatureHandler = m ∧
    (Handler256 h secret [OptionVerifyFailedHandler f]).verifyFailedHandler = f :=
  ⟨rfl, rfl, rfl, rfl, rfl, rfl, rfl, rfl, rfl, rfl, rfl,
   rfl, rfl, rfl, rfl, rfl, rfl, rfl, rfl, rfl, rfl, rfl⟩
